import Mathlib

/-!
Verification development for the media-manager core (`MediaManager4.py`):
the ffmpeg progress parser, the in-place genre rewrite with its
rename-based file replacement, the audio/video export command builder,
and the MP3 (ID3) / M4A (MP4 atom) tag read/write functions.

Each definition is a shallow embedding of the corresponding Python
function; source line numbers are given at each definition.  Machine
integers are modelled as `Int`/`Nat` (Python integers are unbounded),
Python floats are modelled as `ℚ` (all values appearing in the progress
computation are exact in both), and filesystem state is passed
explicitly.
-/

/-! ## Python `int(...)` parsing

Model of Python's `int(str)` conversion as used by the source
(`int(v)` at lines 208/216 and `int(a.strip())` etc. at lines 480/484):
optional surrounding whitespace, an optional sign, then a nonempty digit
sequence in which single underscores may separate digits.  Returns
`none` where Python raises `ValueError`. -/

/-- Python `str.strip()` on a character list: whitespace removed from
both ends. -/
def stripChars (l : List Char) : List Char :=
  ((l.dropWhile Char.isWhitespace).reverse.dropWhile Char.isWhitespace).reverse

/-- Python `str.strip()`. -/
def pyStrip (s : String) : String := String.mk (stripChars s.data)

def pyDigitsAux : Nat → List Char → Option Nat
  | acc, [] => some acc
  | acc, '_' :: c :: rest =>
      if c.isDigit then pyDigitsAux (10 * acc + (c.toNat - 48)) rest else none
  | _, ['_'] => none
  | acc, c :: rest =>
      if c.isDigit then pyDigitsAux (10 * acc + (c.toNat - 48)) rest else none

def pyDigits : List Char → Option Nat
  | [] => none
  | c :: rest => if c.isDigit then pyDigitsAux (c.toNat - 48) rest else none

def pyInt (s : String) : Option Int :=
  match stripChars s.data with
  | [] => none
  | '+' :: rest => (pyDigits rest).map Int.ofNat
  | '-' :: rest => (pyDigits rest).map (fun n => -(n : Int))
  | l => (pyDigits l).map Int.ofNat

/-! ## ProgressParser (`run_ffmpeg_with_progress`, lines 197-227)

The stdout loop of `run_ffmpeg_with_progress` is a fold over the lines
of the encoder's progress stream.  Wall-clock time is made explicit:
each line carries the time (`time.time()`) at which it is processed, and
the parser state carries the latest `last_update` value.  Times are
modelled in integer milliseconds, so the source's rate-limit comparison
`time.time() - last_update > 0.12` (seconds) becomes `t - last > 120`.
The percentage `(out_ms / total_ms) * 100.0` is modelled exactly in `ℚ`
(all percentages appearing in the spec's scenarios are float-exact).
A progress callback is assumed to be installed (the `progress_cb and
...` conjunctions reduce to their time condition); delivered events are
collected in a list. -/

/-- One delivered progress event: the `(pct, text)` pair passed to
`progress_cb`.  `percent` is `none` when the Python code passes
`pct = None`. -/
structure PEvent where
  percent : Option ℚ
  phase : String
deriving DecidableEq, Repr

/-- Parser state: `total_ms` (line 184, mutated at lines 206-210) and
`last_update` (line 185, updated at line 223). -/
structure PState where
  total_ms : Option Int
  last_update : Int
deriving DecidableEq, Repr

/-- Split a character list at the first occurrence of `sep`, as Python
`s.split(sep, 1)` does; `none` when there is no separator. -/
def splitFirstChars (sep : Char) : List Char → Option (List Char × List Char)
  | [] => none
  | c :: rest =>
    if c = sep then some ([], rest)
    else
      match splitFirstChars sep rest with
      | none => none
      | some (k, v) => some (c :: k, v)

/-- Python `s.split(sep, 1)` returning `none` when `sep` is absent. -/
def splitFirst (sep : Char) (s : String) : Option (String × String) :=
  (splitFirstChars sep s.data).map (fun p => (String.mk p.1, String.mk p.2))

/-- Split a line on its first `=`; `none` when the line is blank or has
no separator (the `continue` at lines 200-201). -/
def splitEq (line : String) : Option (String × String) :=
  splitFirst '=' line

/-- Body of the stdout loop (lines 198-227) for a single line arriving at
time `t`: returns the updated state and the events delivered for this
line. -/
def procLine (st : PState) (t : Int) (raw : String) : PState × List PEvent :=
  match splitEq (pyStrip raw) with
  | none => (st, [])
  | some (k0, v0) =>
    let k := pyStrip k0
    let v := pyStrip v0
    let st1 : PState :=
      if k = "duration_ms" then { st with total_ms := pyInt v } else st
    let out : PState × List PEvent :=
      if k = "out_time_ms" then
        let pct : Option ℚ :=
          match st1.total_ms with
          | some total =>
            if total > 0 then
              match pyInt v with
              | some o => some (max 0 (min 100 (mkRat (o * 100) total.toNat)))
              | none => none
            else none
          | none => none
        if t - st1.last_update > 120 then
          ({ st1 with last_update := t }, [{ percent := pct, phase := "Bearbetar…" }])
        else (st1, [])
      else (st1, [])
    let fin : List PEvent :=
      if k = "progress" ∧ v = "end" then [{ percent := some 100, phase := "Klar" }] else []
    (out.1, out.2 ++ fin)

/-- The whole stdout loop over a list of timestamped lines. -/
def runProgress : PState → List (Int × String) → List PEvent
  | _, [] => []
  | st, (t, l) :: rest =>
    let s := procLine st t l
    s.2 ++ runProgress s.1 rest

/-- Initial parser state: `total_ms = None`, `last_update = time.time()`
taken at start time `t0` (lines 184-185). -/
def initPState (t0 : Int) : PState := { total_ms := none, last_update := t0 }

/-! ## AtomicReplace / `ffmpeg_write_genre_inplace` (lines 237-267)

Filesystem model.  Only three paths can be touched by the function: the
source path, its `.__tmp__` sibling (line 242) and its `.__bak__`
sibling (line 258); the three names are pairwise distinct, so the state
is a triple of optional file contents.  Contents are abstract: the
pre-operation original, the fully written encoder output, a partially
written file (an interrupted encode), or arbitrary other content (such
as a stray file from an earlier run). -/

/-- Abstract file content. -/
inductive FContent
  | orig
  | newFile
  | halfWritten
  | other (n : Nat)
deriving DecidableEq, Repr

/-- State of the three paths the function can touch: `none` means no
file exists at that path. -/
structure FS where
  src : Option FContent
  tmp : Option FContent
  bak : Option FContent
deriving DecidableEq, Repr

/-- The replacement phase (the `try` block at lines 257-263), with
failure injection: `f0 f1 f2 f3` tell whether each of the four
filesystem calls (`backup.unlink()`, `src.rename(backup)`,
`tmp.rename(src)`, `backup.unlink(missing_ok=True)`) raises.  A rename
whose source path does not exist raises as well.  On any exception the
`except` clause at lines 264-265 reports failure and does nothing else.
Returns the list of observable filesystem states (initial state and the
state after each executed call) and whether the block completed. -/
def replacePhase (fs0 : FS) (f0 f1 f2 f3 : Bool) : List FS × Bool :=
  -- line 259-260: `if backup.exists(): backup.unlink()`
  if fs0.bak.isSome && f0 then ([fs0], false)
  else
    let fs1 : FS := { fs0 with bak := none }
    -- line 261: `src.rename(backup)`
    if f1 then ([fs0, fs1], false)
    else
      match fs1.src with
      | none => ([fs0, fs1], false)
      | some c =>
        let fs2 : FS := { fs1 with src := none, bak := some c }
        -- line 262: `tmp.rename(src)`
        if f2 then ([fs0, fs1, fs2], false)
        else
          match fs2.tmp with
          | none => ([fs0, fs1, fs2], false)
          | some d =>
            let fs3 : FS := { fs2 with tmp := none, src := some d }
            -- line 263: `backup.unlink(missing_ok=True)`
            if f3 then ([fs0, fs1, fs2, fs3], false)
            else ([fs0, fs1, fs2, fs3, { fs3 with bak := none }], true)

/-- Outcome of `run_ffmpeg_with_progress` as observed by
`ffmpeg_write_genre_inplace` at line 248: success means the encoder
exited 0 having fully written the temporary file; failure (spawn error
or non-zero exit) leaves the temporary path absent or partially
written, as given by `tmpLeft`. -/
inductive EncodeOutcome
  | success
  | failure (tmpLeft : Option FContent)
deriving DecidableEq, Repr

/-- Result of `ffmpeg_write_genre_inplace`. -/
inductive GenreResult
  | encodeFailed
  | replaceFailed
  | ok
deriving DecidableEq, Repr

/-- `ffmpeg_write_genre_inplace` (lines 237-267) from the point where the
encoder has been invoked, for a caller with a configured ffmpeg path.
On encoder failure the cleanup `if tmp.exists(): tmp.unlink()`
(lines 250-254) runs with its exception swallowed (`cleanupFails`
injects a failing unlink); on success the replacement phase runs with
failure injection `f0 f1 f2 f3`.  Returns the observable filesystem
states in order, and the function's result. -/
def ffmpeg_write_genre_inplace (fs0 : FS) (enc : EncodeOutcome)
    (cleanupFails f0 f1 f2 f3 : Bool) : List FS × GenreResult :=
  match enc with
  | .success =>
    -- the encoder fully wrote the temporary sibling file
    let fs1 : FS := { fs0 with tmp := some FContent.newFile }
    let r := replacePhase fs1 f0 f1 f2 f3
    (fs0 :: r.1, if r.2 then GenreResult.ok else GenreResult.replaceFailed)
  | .failure tmpLeft =>
    let fs1 : FS := { fs0 with tmp := tmpLeft }
    if cleanupFails then ([fs0, fs1], GenreResult.encodeFailed)
    else ([fs0, fs1, { fs1 with tmp := none }], GenreResult.encodeFailed)

/-- Default filesystem state used with `List.getLastD`. -/
def emptyFS : FS := { src := none, tmp := none, bak := none }

/-- Final state of a run. -/
def finalFS (r : List FS × GenreResult) : FS := r.1.getLastD emptyFS

/-! ## Tag models (MP3 / M4A, lines 308-536)

The mutagen tag containers are modelled in memory: an ID3 tag is a
finite multimap from frame identifiers to frame lists (`getall`,
`setall`, `delall`, `add`); an MP4 tag dictionary maps atom keys to
values.  `tags.save()` / `m.save()` persist the container unchanged, so
a write followed by a read of the same file is modelled as a read of the
written container. -/

/-- An ID3v2 frame as the source uses them: a text frame
(`TIT2`/`TPE1`/`TALB`/`TRCK`/`TDRC`/`TCON`), a `COMM` frame, an `APIC`
frame, or any other frame (opaque to the source, which never looks
inside frames it does not write). -/
inductive ID3Frame
  | text (encoding : Nat) (txt : List String)
  | comm (encoding : Nat) (lang desc : String) (txt : List String)
  | apic (encoding : Nat) (mime : String) (ptype : Nat) (desc : String) (data : List Nat)
  | otherFrame (raw : Nat)
deriving DecidableEq, Repr

/-- An ID3 tag container: frame lists per frame identifier. -/
structure ID3 where
  frames : String → List ID3Frame

/-- mutagen `tags.setall(fid, lst)`. -/
def setall (tags : ID3) (fid : String) (lst : List ID3Frame) : ID3 :=
  ⟨fun g => if g = fid then lst else tags.frames g⟩

/-- mutagen `tags.delall(fid)`. -/
def delall (tags : ID3) (fid : String) : ID3 :=
  ⟨fun g => if g = fid then [] else tags.frames g⟩

/-- mutagen `tags.add(fr)`: appends to the frames with `fr`'s id (only
used for `APIC` at line 396, directly after `delall("APIC")`). -/
def addFrame (tags : ID3) (fid : String) (fr : ID3Frame) : ID3 :=
  ⟨fun g => if g = fid then tags.frames g ++ [fr] else tags.frames g⟩

/-- The editable tag fields as passed in the `fields` dict (the source
reads each with `fields.get(key, "") or ""`, so a missing or `None`
entry behaves as `""`; absence is therefore modelled by `""`). -/
structure TagFields where
  title : String
  artist : String
  album : String
  track : String
  year : String
  genre : String
  comment : String
deriving DecidableEq, Repr

/-- The `cover` dict argument: an action string (`"set"`/`"remove"`;
anything else changes nothing), image bytes (`[]` models the falsy
`None`/empty bytes) and a mime string (`""` models a falsy missing
mime). -/
structure CoverArg where
  action : String
  bytes : List Nat
  mime : String
deriving DecidableEq, Repr

/-- The dict returned by `tags_read_mp3` / `tags_read_m4a`. -/
structure ReadTags where
  title : String
  artist : String
  album : String
  track : String
  year : String
  genre : String
  comment : String
  has_cover : Bool
  cover_bytes : Option (List Nat)
  cover_mime : Option String
deriving DecidableEq, Repr

/-- `get_text` (lines 318-326): first frame with the identifier; its
first text entry if the frame has a non-empty `text` attribute, else
`""`. -/
def get_text (tags : ID3) (fid : String) : String :=
  match tags.frames fid with
  | [] => ""
  | fr :: _ =>
    match fr with
    | .text _ (s :: _) => s
    | .comm _ _ _ (s :: _) => s
    | _ => ""

/-- `tags_read_mp3` (lines 308-357) on an ID3 container that is present
and parses (the `ID3NoHeaderError` / generic exception paths return the
empty dict and are not modelled here). -/
def tags_read_mp3 (tags : ID3) : ReadTags :=
  let comment :=
    match tags.frames "COMM" with
    | [] => ""
    | fr :: _ =>
      match fr with
      | .comm _ _ _ (s :: _) => s
      | _ => ""
  let cover :=
    match tags.frames "APIC" with
    | .apic _ mime _ _ data :: _ => (true, some data, some mime)
    | _ => (false, none, none)
  { title := get_text tags "TIT2"
    artist := get_text tags "TPE1"
    album := get_text tags "TALB"
    track := get_text tags "TRCK"
    year := get_text tags "TDRC"
    genre := get_text tags "TCON"
    comment := comment
    has_cover := cover.1
    cover_bytes := cover.2.1
    cover_mime := cover.2.2 }

/-- The inner `put` of `tags_write_mp3` (lines 368-373): set the frame
when the stripped value is non-empty, delete all frames with that id
otherwise. -/
def id3Put (tags : ID3) (fid : String) (fr : ID3Frame) (value : String) : ID3 :=
  if pyStrip value ≠ "" then setall tags fid [fr] else delall tags fid

/-- `tags_write_mp3` (lines 359-401) on the parsed container (a fresh
empty container when the file had no ID3 header, line 366).  `tags.save`
persists the container unchanged. -/
def tags_write_mp3 (tags : ID3) (fields : TagFields) (cover : Option CoverArg) : ID3 :=
  let t := id3Put tags "TIT2" (.text 3 [pyStrip fields.title]) fields.title
  let t := id3Put t "TPE1" (.text 3 [pyStrip fields.artist]) fields.artist
  let t := id3Put t "TALB" (.text 3 [pyStrip fields.album]) fields.album
  let t := id3Put t "TRCK" (.text 3 [pyStrip fields.track]) fields.track
  let t := id3Put t "TDRC" (.text 3 [pyStrip fields.year]) fields.year
  let t := id3Put t "TCON" (.text 3 [pyStrip fields.genre]) fields.genre
  -- lines 382-386: COMM
  let comm_val := pyStrip fields.comment
  let t :=
    if comm_val ≠ "" then setall t "COMM" [.comm 3 "eng" "" [comm_val]]
    else delall t "COMM"
  -- lines 388-396: cover action against APIC
  match cover with
  | none => t
  | some c =>
    if c.action = "remove" then delall t "APIC"
    else if c.action = "set" then
      if c.bytes ≠ [] then
        let mime := if c.mime = "" then "image/jpeg" else c.mime
        addFrame (delall t "APIC") "APIC" (.apic 3 mime 3 "Cover" c.bytes)
      else t
    else t

/-- A value in an MP4 tag dictionary as the source uses them: a list of
text values (the `©`-keys), the `trkn` list of `(track, total)` pairs,
or the `covr` list of covers, each a byte string with a PNG/JPEG format
flag (`isPng`). -/
inductive MP4Value
  | texts (l : List String)
  | trkn (l : List (Int × Int))
  | covr (l : List (List Nat × Bool))
deriving DecidableEq, Repr

/-- An MP4 tag dictionary (`m.tags`): atom key to value. -/
abbrev MP4Tags : Type := String → Option MP4Value

/-- `m.tags[key] = [v]` / similar assignment. -/
def m4aSet (m : MP4Tags) (key : String) (v : MP4Value) : MP4Tags :=
  fun k => if k = key then some v else m k

/-- `del m.tags[key]` (the source guards it with `key in m.tags`, which
makes no observable difference on the dictionary). -/
def m4aDel (m : MP4Tags) (key : String) : MP4Tags :=
  fun k => if k = key then none else m k

/-- `get1` (lines 423-432): `str(v[0])` of a non-empty entry, else `""`.
The source only applies it to text atoms (which is all the writer ever
stores under the `©`-keys); for a non-text or empty value it returns
`""` like its exception handler does. -/
def get1 (m : MP4Tags) (key : String) : String :=
  match m key with
  | some (.texts (s :: _)) => s
  | _ => ""

/-- `_parse_track` (lines 473-486). -/
def _parse_track (track_str : String) : Int × Int :=
  let s := pyStrip track_str
  if s = "" then (0, 0)
  else if s.data.contains '/' then
    match splitFirst '/' s with
    | none => (0, 0)
    | some (a, b) =>
      match pyInt (pyStrip a), pyInt (pyStrip b) with
      | some x, some y => (x, y)
      | _, _ => (0, 0)
  else
    match pyInt s with
    | some x => (x, 0)
    | none => (0, 0)

/-- The inner `put` of `tags_write_m4a` (lines 496-502): set
`[stripped value]` when non-empty, else delete the key. -/
def m4aPut (t : MP4Tags) (key val : String) : MP4Tags :=
  if pyStrip val ≠ "" then m4aSet t key (.texts [pyStrip val]) else m4aDel t key

/-- `tags_write_m4a` (lines 488-536) on the parsed tag dictionary
(`m.add_tags()` supplies an empty dictionary when absent); `m.save()`
persists it unchanged. -/
def tags_write_m4a (m : MP4Tags) (fields : TagFields) (cover : Option CoverArg) : MP4Tags :=
  let t := m4aPut m "©nam" fields.title
  let t := m4aPut t "©ART" fields.artist
  let t := m4aPut t "©alb" fields.album
  let t := m4aPut t "©day" fields.year
  let t := m4aPut t "©gen" fields.genre
  let t := m4aPut t "©cmt" fields.comment
  -- lines 511-518: track
  let tr := pyStrip fields.track
  let t :=
    if tr ≠ "" then
      let p := _parse_track tr
      if p.1 ≠ 0 then m4aSet t "trkn" (.trkn [p]) else t
    else m4aDel t "trkn"
  -- lines 520-531: cover action against covr
  match cover with
  | none => t
  | some c =>
    if c.action = "remove" then m4aDel t "covr"
    else if c.action = "set" then
      if c.bytes ≠ [] then
        let mime := if c.mime = "" then "image/jpeg" else c.mime
        if mime = "image/png" then m4aSet t "covr" (.covr [(c.bytes, true)])
        else m4aSet t "covr" (.covr [(c.bytes, false)])
      else t
    else t

/-- The track string built by `tags_read_m4a` (lines 434-440):
`f"{tn}/{tt}" if tt else str(tn)` from the first `trkn` entry, `""` when
the atom is absent, empty, or raises. -/
def readTrackM4a (m : MP4Tags) : String :=
  match m "trkn" with
  | some (.trkn ((tn, tt) :: _)) =>
    if tt ≠ 0 then toString tn ++ "/" ++ toString tt else toString tn
  | _ => ""

/-- `tags_read_m4a` (lines 415-471) on the parsed tag dictionary. -/
def tags_read_m4a (m : MP4Tags) : ReadTags :=
  let cover :=
    match m "covr" with
    | some (.covr ((b, isPng) :: _)) =>
      (true, some b, some (if isPng then "image/png" else "image/jpeg"))
    | _ => (false, none, none)
  { title := get1 m "©nam"
    artist := get1 m "©ART"
    album := get1 m "©alb"
    track := readTrackM4a m
    year := get1 m "©day"
    genre := get1 m "©gen"
    comment := get1 m "©cmt"
    has_cover := cover.1
    cover_bytes := cover.2.1
    cover_mime := cover.2.2 }

/-- The documented canonical form of a track string under the M4A
round trip: `""` stays `""`; otherwise the string is parsed and
re-rendered as `"N"` (when the total is 0) or `"N/M"`; a parsed track
number of 0 renders as `""` (the atom is omitted). -/
def trackCanon (t : String) : String :=
  let s := pyStrip t
  if s = "" then ""
  else
    let p := _parse_track s
    if p.1 = 0 then ""
    else if p.2 ≠ 0 then toString p.1 ++ "/" ++ toString p.2
    else toString p.1

/-! ## `ffmpeg_export` (lines 269-305) -/

/-- Split a character list at every occurrence of `sep` (Python
`s.split(sep)` on a non-empty separator: n separators yield n+1
pieces). -/
def splitAllChars (sep : Char) : List Char → List (List Char)
  | [] => [[]]
  | c :: rest =>
    let r := splitAllChars sep rest
    if c = sep then [] :: r
    else
      match r with
      | [] => [[c]]
      | h :: t => (c :: h) :: t

/-- `pathlib.Path(p).suffix`: the final `.`-suffix of the last path
component; empty when there is no dot, when the only dot starts the
name, or when the name ends in a dot. -/
def pathSuffix (p : String) : String :=
  let name := (splitAllChars '/' p.data).getLastD []
  match splitAllChars '.' name with
  | [] => ""
  | [_] => ""
  | p0 :: rest =>
    let last := rest.getLastD []
    if last = [] then ""
    else if p0 = [] ∧ rest.length = 1 then ""
    else String.mk ('.' :: last)

/-- Python `str.lower()` restricted to ASCII letters (file extensions in
the source are ASCII). -/
def asciiLower (s : String) : String :=
  String.mk (s.data.map fun c =>
    if 'A' ≤ c ∧ c ≤ 'Z' then Char.ofNat (c.toNat + 32) else c)

/-- What `ffmpeg_export` does before any encoding happens: either it
returns an error without spawning anything, or it spawns the given
command line and returns that invocation's result. -/
inductive ExportAction
  | configError (msg : String)
  | spawn (cmd : List String)
deriving DecidableEq, Repr

/-- `ffmpeg_export` (lines 269-305): command construction and extension
dispatch.  `Path(...)` to `str(...)` round trips are modelled as the
identity on the given path strings. -/
def ffmpeg_export (ffmpeg_path : Option String) (src_path dst_path kind : String) :
    ExportAction :=
  match ffmpeg_path with
  | none => .configError "ffmpeg saknas i appen (tools/ffmpeg)."
  | some fp =>
    let ext := asciiLower (pathSuffix dst_path)
    if kind = "video" then
      .spawn [fp, "-y", "-i", src_path, "-map", "0:v:0", "-map", "0:a?",
              "-c:v", "libx264", "-preset", "veryfast", "-crf", "20",
              "-c:a", "aac", "-b:a", "192k", "-progress", "pipe:1", "-nostats", dst_path]
    else if ext = ".m4a" then
      .spawn [fp, "-y", "-i", src_path, "-vn", "-c:a", "aac", "-b:a", "192k",
              "-progress", "pipe:1", "-nostats", dst_path]
    else if ext = ".mp3" then
      .spawn [fp, "-y", "-i", src_path, "-vn", "-c:a", "libmp3lame", "-q:a", "2",
              "-progress", "pipe:1", "-nostats", dst_path]
    else if ext = ".ogg" then
      .spawn [fp, "-y", "-i", src_path, "-vn", "-c:a", "libvorbis", "-q:a", "6",
              "-progress", "pipe:1", "-nostats", dst_path]
    else .configError ("Okänt ljudformat: " ++ ext)

/-! ## Claims about the progress parser -/

/-- Claim C4: feeding the progress parser the line sequence
`duration_ms=10000`, `out_time_ms=2500`, `out_time_ms=7500`,
`progress=end` delivers events with percent 25.0, 75.0, 100.0 in that
order (percent computed as `clamp(out_time_ms/duration_ms*100, 0, 100)`),
and no delivered event has a lower percent than the previously delivered
one.  The two hypotheses are the spec's own rate-limit proviso: each
`out_time_ms` line arrives more than ~120 ms after the previously
delivered event. -/
theorem progress_sequence_events (t0 t1 t2 t3 t4 : Int)
    (h1 : t2 - t0 > 120) (h2 : t3 - t2 > 120) :
    runProgress (initPState t0)
      [(t1, "duration_ms=10000"), (t2, "out_time_ms=2500"),
       (t3, "out_time_ms=7500"), (t4, "progress=end")]
    = [{ percent := some 25, phase := "Bearbetar…" },
       { percent := some 75, phase := "Bearbetar…" },
       { percent := some 100, phase := "Klar" }]
    ∧ List.Chain' (fun a b => a.percent.getD 0 ≤ b.percent.getD 0)
        (runProgress (initPState t0)
          [(t1, "duration_ms=10000"), (t2, "out_time_ms=2500"),
           (t3, "out_time_ms=7500"), (t4, "progress=end")]) := by
  have e1 : procLine (initPState t0) t1 "duration_ms=10000"
      = ({ total_ms := some 10000, last_update := t0 }, []) := rfl
  have e2 : procLine { total_ms := some 10000, last_update := t0 } t2 "out_time_ms=2500"
      = ({ total_ms := some 10000, last_update := t2 },
         [{ percent := some 25, phase := "Bearbetar…" }]) := by
    have hsplit : splitEq (pyStrip "out_time_ms=2500") = some ("out_time_ms", "2500") := by
      decide
    have hk : pyStrip "out_time_ms" = "out_time_ms" := by decide
    have hv : pyStrip "2500" = "2500" := by decide
    have hi : pyInt "2500" = some 2500 := by decide
    have hq : max (0:ℚ) (min 100 (mkRat (2500 * 100) (Int.toNat 10000))) = 25 := by decide
    have hd : ("out_time_ms" = "duration_ms") = False := by decide
    have hp : ("out_time_ms" = "progress") = False := by decide
    simp only [procLine, hsplit, hk, hv, hi, hq, hd, hp, if_false, if_true, and_false,
      false_and]
    norm_num [h1]
  have e3 : procLine { total_ms := some 10000, last_update := t2 } t3 "out_time_ms=7500"
      = ({ total_ms := some 10000, last_update := t3 },
         [{ percent := some 75, phase := "Bearbetar…" }]) := by
    have hsplit : splitEq (pyStrip "out_time_ms=7500") = some ("out_time_ms", "7500") := by
      decide
    have hk : pyStrip "out_time_ms" = "out_time_ms" := by decide
    have hv : pyStrip "7500" = "7500" := by decide
    have hi : pyInt "7500" = some 7500 := by decide
    have hq : max (0:ℚ) (min 100 (mkRat (7500 * 100) (Int.toNat 10000))) = 75 := by decide
    have hd : ("out_time_ms" = "duration_ms") = False := by decide
    have hp : ("out_time_ms" = "progress") = False := by decide
    simp only [procLine, hsplit, hk, hv, hi, hq, hd, hp, if_false, if_true, and_false,
      false_and]
    norm_num [h2]
  have e4 : procLine { total_ms := some 10000, last_update := t3 } t4 "progress=end"
      = ({ total_ms := some 10000, last_update := t3 },
         [{ percent := some 100, phase := "Klar" }]) := rfl
  have heq : runProgress (initPState t0)
      [(t1, "duration_ms=10000"), (t2, "out_time_ms=2500"),
       (t3, "out_time_ms=7500"), (t4, "progress=end")]
      = [{ percent := some 25, phase := "Bearbetar…" },
         { percent := some 75, phase := "Bearbetar…" },
         { percent := some 100, phase := "Klar" }] := by
    simp only [runProgress, e1, e2, e3, e4]
    rfl
  refine ⟨heq, heq ▸ ?_⟩
  norm_num [List.chain'_cons, List.chain'_singleton]

/-- Witness for C4 at concrete times (start at 0 ms, lines at 1, 2, 3
and 4 seconds). -/
theorem progress_sequence_events_witness :
    runProgress (initPState 0)
      [(1000, "duration_ms=10000"), (2000, "out_time_ms=2500"),
       (3000, "out_time_ms=7500"), (4000, "progress=end")]
    = [{ percent := some 25, phase := "Bearbetar…" },
       { percent := some 75, phase := "Bearbetar…" },
       { percent := some 100, phase := "Klar" }]
    ∧ List.Chain' (fun a b => a.percent.getD 0 ≤ b.percent.getD 0)
        (runProgress (initPState 0)
          [(1000, "duration_ms=10000"), (2000, "out_time_ms=2500"),
           (3000, "out_time_ms=7500"), (4000, "progress=end")]) :=
  progress_sequence_events 0 1000 2000 3000 4000 (by decide) (by decide)

/-- Counterexample to claim C5: the `duration_ms` reference is not
latched at the first integer value.  After `duration_ms=10000`, a later
malformed line `duration_ms=oops` resets the reference, so the following
`out_time_ms=5000` delivers percent `None` instead of the 50.0 a latched
reference of 10000 would give. -/
theorem duration_not_latched_cex :
    runProgress (initPState 0)
      [(1000, "duration_ms=10000"), (2000, "duration_ms=oops"),
       (3000, "out_time_ms=5000"), (4000, "progress=end")]
    = [{ percent := none, phase := "Bearbetar…" },
       { percent := some 100, phase := "Klar" }]
    ∧ runProgress (initPState 0)
      [(1000, "duration_ms=10000"), (2000, "duration_ms=oops"),
       (3000, "out_time_ms=5000"), (4000, "progress=end")]
    ≠ [{ percent := some 50, phase := "Bearbetar…" },
       { percent := some 100, phase := "Klar" }] := by decide

/-- Claim C5 as amended: the `duration_ms` reference is not latched;
every line whose key is `duration_ms` overwrites the reference with the
parse of that line's value, whatever the previous reference was — an
integer value replaces it, and a malformed value resets it to `None`. -/
theorem duration_last_write_wins (st : PState) (t : Int) (raw k v : String)
    (hsplit : splitEq (pyStrip raw) = some (k, v))
    (hk : pyStrip k = "duration_ms") :
    (procLine st t raw).1.total_ms = pyInt (pyStrip v) := by
  have hd : ("duration_ms" = "out_time_ms") = False := by decide
  simp only [procLine, hsplit, hk, hd, if_true, if_false, false_and, and_false]

/-- Witness for the amended C5: a second, malformed `duration_ms` line
resets a previously set reference of 10000 to `None`. -/
theorem duration_last_write_wins_witness :
    (procLine { total_ms := some 10000, last_update := 0 } 2000 "duration_ms=oops").1.total_ms
      = pyInt (pyStrip "oops") :=
  duration_last_write_wins { total_ms := some 10000, last_update := 0 } 2000
    "duration_ms=oops" "duration_ms" "oops" (by decide) (by decide)

/-! ## Claims about the in-place genre rewrite / atomic replace -/

/-- Invariant of the replacement phase: every observable state's source
path holds the content it started with, nothing, or the content of the
temporary file; no other content ever appears at the source path. -/
theorem replacePhase_src_states (fs : FS) (d : FContent) (f0 f1 f2 f3 : Bool)
    (htmp : fs.tmp = some d) :
    ∀ s ∈ (replacePhase fs f0 f1 f2 f3).1,
      s.src = fs.src ∨ s.src = none ∨ s.src = some d := by
  intro s hs
  unfold replacePhase at hs
  rcases hsrc : fs.src with _ | c <;>
    cases f0 <;> cases f1 <;> cases f2 <;> cases f3 <;>
    rcases hb : fs.bak with _ | b <;>
    simp [hsrc, htmp, hb] at hs <;>
    aesop

/-- Counterexample to claim C1: when step (2) of the replacement
(`tmp.rename(src)`) fails after the original has been renamed to its
backup name, `ffmpeg_write_genre_inplace` does not rename the backup
back.  In the final state the source path is empty and the original sits
at the backup path — no restore was attempted; the function only
reports failure. -/
theorem genre_inplace_no_rollback_cex :
    (ffmpeg_write_genre_inplace { src := some FContent.orig, tmp := none, bak := none }
        EncodeOutcome.success false false false true false).2 = GenreResult.replaceFailed
    ∧ finalFS (ffmpeg_write_genre_inplace { src := some FContent.orig, tmp := none, bak := none }
        EncodeOutcome.success false false false true false)
      = { src := none, tmp := some FContent.newFile, bak := some FContent.orig }
    ∧ (finalFS (ffmpeg_write_genre_inplace { src := some FContent.orig, tmp := none, bak := none }
        EncodeOutcome.success false false false true false)).src ≠ some FContent.orig := by
  decide

/-- Claim C1 as amended: if step (2) fails after the original has been
renamed to its backup name, the operation reports failure without
attempting any rollback — the original remains at the backup path, the
source path is left with no file, and the temporary file is left on
disk. -/
theorem genre_inplace_step2_failure_no_rollback (fs0 : FS) (c : FContent) (f3 : Bool)
    (h : fs0.src = some c) :
    (ffmpeg_write_genre_inplace fs0 EncodeOutcome.success false false false true f3).2
      = GenreResult.replaceFailed
    ∧ finalFS (ffmpeg_write_genre_inplace fs0 EncodeOutcome.success false false false true f3)
      = { src := none, tmp := some FContent.newFile, bak := some c } := by
  simp [ffmpeg_write_genre_inplace, replacePhase, finalFS, h]

/-- Witness for the amended C1 at a concrete initial state. -/
theorem genre_inplace_step2_failure_no_rollback_witness :
    (ffmpeg_write_genre_inplace { src := some FContent.orig, tmp := none, bak := none }
        EncodeOutcome.success false false false true true).2 = GenreResult.replaceFailed
    ∧ finalFS (ffmpeg_write_genre_inplace { src := some FContent.orig, tmp := none, bak := none }
        EncodeOutcome.success false false false true true)
      = { src := none, tmp := some FContent.newFile, bak := some FContent.orig } :=
  genre_inplace_step2_failure_no_rollback
    { src := some FContent.orig, tmp := none, bak := none } FContent.orig true rfl

/-- Counterexample to claim C2: even in a fully successful run of
`ffmpeg_write_genre_inplace`, the observable state between step (1)
(`src.rename(backup)`) and step (2) (`tmp.rename(src)`) has no file at
the target path, contradicting "exactly one file exists at the target
path at every observable point". -/
theorem genre_inplace_zero_file_window_cex :
    (ffmpeg_write_genre_inplace { src := some FContent.orig, tmp := none, bak := none }
        EncodeOutcome.success false false false false false).1.get? 3
      = some { src := none, tmp := some FContent.newFile, bak := some FContent.orig }
    ∧ (ffmpeg_write_genre_inplace { src := some FContent.orig, tmp := none, bak := none }
        EncodeOutcome.success false false false false false).2 = GenreResult.ok := by
  decide

/-- Claim C2 as amended: at every observable point, a file present at
the target path is either the pre-operation original or the
fully-written replacement — never a partially written file — but the
path may transiently hold no file at all (between the two renames). -/
theorem genre_inplace_target_never_partial (fs0 : FS) (enc : EncodeOutcome)
    (cf f0 f1 f2 f3 : Bool) (h : fs0.src = some FContent.orig) :
    ∀ s ∈ (ffmpeg_write_genre_inplace fs0 enc cf f0 f1 f2 f3).1,
      s.src = some FContent.orig ∨ s.src = some FContent.newFile ∨ s.src = none := by
  intro s hs
  cases enc with
  | success =>
    simp only [ffmpeg_write_genre_inplace, List.mem_cons] at hs
    rcases hs with rfl | hs2
    · exact Or.inl h
    · have h3 := replacePhase_src_states { fs0 with tmp := some FContent.newFile }
        FContent.newFile f0 f1 f2 f3 rfl s hs2
      rcases h3 with h4 | h4 | h4
      · exact Or.inl (h4.trans h)
      · exact Or.inr (Or.inr h4)
      · exact Or.inr (Or.inl h4)
  | failure tmpLeft =>
    simp only [ffmpeg_write_genre_inplace] at hs
    cases cf <;> simp at hs <;> aesop

/-- Witness for the amended C2: the zero-file window state of the
successful run satisfies the (amended) disjunction. -/
theorem genre_inplace_target_never_partial_witness :
    ({ src := none, tmp := some FContent.newFile, bak := some FContent.orig } : FS).src
        = some FContent.orig
    ∨ ({ src := none, tmp := some FContent.newFile, bak := some FContent.orig } : FS).src
        = some FContent.newFile
    ∨ ({ src := none, tmp := some FContent.newFile, bak := some FContent.orig } : FS).src
        = none :=
  genre_inplace_target_never_partial
    { src := some FContent.orig, tmp := none, bak := none }
    EncodeOutcome.success false false false false false rfl
    { src := none, tmp := some FContent.newFile, bak := some FContent.orig }
    (by decide)

/-- Counterexample to claim C6: when the replacement rename sequence
fails (here step (1), `src.rename(backup)`), the function returns
failure with the `.__tmp__` file still on disk — no deletion is
attempted on that failure path. -/
theorem genre_inplace_tmp_left_cex :
    (ffmpeg_write_genre_inplace { src := some FContent.orig, tmp := none, bak := none }
        EncodeOutcome.success false false true false false).2 = GenreResult.replaceFailed
    ∧ (finalFS (ffmpeg_write_genre_inplace { src := some FContent.orig, tmp := none, bak := none }
        EncodeOutcome.success false false true false false)).tmp = some FContent.newFile := by
  decide

/-- Claim C6 as amended: on encoder failure (spawn failure or non-zero
exit) the temporary file is deleted, provided the deletion itself does
not raise (its exception is swallowed); but on failure of the
replacement rename sequence before the temporary has been renamed into
place, no deletion is attempted and the temporary remains on disk.
Stated in full: (a) the encode-failure cleanup; (b) for every failure
pattern whatsoever, a replacement failure leaves the new content either
already installed at the original path (a failure of the final backup
unlink, after step (2)) or still on disk at the temporary path; (c) any
run in which step (0) or step (1) fails, and (d) any run in which
step (2) is the first possible failure, ends with the temporary still on
disk. -/
theorem genre_inplace_tmp_cleanup (fs0 : FS) (tmpLeft : Option FContent)
    (f0 f1 f2 f3 : Bool) :
    ((ffmpeg_write_genre_inplace fs0 (EncodeOutcome.failure tmpLeft) false f0 f1 f2 f3).2
        = GenreResult.encodeFailed
      ∧ (finalFS (ffmpeg_write_genre_inplace fs0
          (EncodeOutcome.failure tmpLeft) false f0 f1 f2 f3)).tmp = none)
    ∧ ((ffmpeg_write_genre_inplace fs0 EncodeOutcome.success false f0 f1 f2 f3).2
        = GenreResult.replaceFailed →
      (finalFS (ffmpeg_write_genre_inplace fs0 EncodeOutcome.success false f0 f1 f2 f3)).src
          = some FContent.newFile
        ∨ (finalFS (ffmpeg_write_genre_inplace fs0 EncodeOutcome.success false f0 f1 f2 f3)).tmp
          = some FContent.newFile)
    ∧ ((ffmpeg_write_genre_inplace fs0 EncodeOutcome.success false f0 true f2 f3).2
        = GenreResult.replaceFailed
      ∧ (finalFS (ffmpeg_write_genre_inplace fs0 EncodeOutcome.success false f0 true f2 f3)).tmp
        = some FContent.newFile)
    ∧ ((ffmpeg_write_genre_inplace fs0 EncodeOutcome.success false f0 false true f3).2
        = GenreResult.replaceFailed
      ∧ (finalFS (ffmpeg_write_genre_inplace fs0
          EncodeOutcome.success false f0 false true f3)).tmp = some FContent.newFile) := by
  refine ⟨⟨rfl, by simp [ffmpeg_write_genre_inplace, finalFS]⟩, ?_, ?_, ?_⟩
  · cases f0 <;> cases f1 <;> cases f2 <;> cases f3 <;>
      cases hb : fs0.bak <;> cases hsrc : fs0.src <;>
      simp [ffmpeg_write_genre_inplace, replacePhase, finalFS, hb, hsrc]
  · cases hb : fs0.bak <;> cases f0 <;>
      simp [ffmpeg_write_genre_inplace, replacePhase, finalFS, hb]
  · cases hb : fs0.bak <;> cases f0 <;> cases hsrc : fs0.src <;>
      simp [ffmpeg_write_genre_inplace, replacePhase, finalFS, hb, hsrc]

/-- Witness for the amended C6: a run failing only at step (3) (the
final backup unlink) has the new content already installed at the
original path, discharging the implication of the general dichotomy. -/
theorem genre_inplace_tmp_cleanup_witness :
    (finalFS (ffmpeg_write_genre_inplace { src := some FContent.orig, tmp := none, bak := none }
        EncodeOutcome.success false false false false true)).src = some FContent.newFile
    ∨ (finalFS (ffmpeg_write_genre_inplace { src := some FContent.orig, tmp := none, bak := none }
        EncodeOutcome.success false false false false true)).tmp = some FContent.newFile :=
  (genre_inplace_tmp_cleanup { src := some FContent.orig, tmp := none, bak := none }
      none false false false true).2.1 (by decide)

/-- Claim C9: whenever the operation reaches the replacement phase
(successful encode) and the `backup.unlink()` call itself does not
fail, the observable state right after that call — and before any
rename — has no file at the backup path while the source file is still
untouched: a pre-existing file of arbitrary content `c` at the backup
path is deleted unconditionally (for every later failure pattern). -/
theorem genre_inplace_backup_clobbered (fs0 : FS) (c : FContent) (f1 f2 f3 : Bool)
    (h : fs0.bak = some c) :
    (ffmpeg_write_genre_inplace fs0 EncodeOutcome.success false false f1 f2 f3).1.get? 2
      = some { src := fs0.src, tmp := some FContent.newFile, bak := none } := by
  cases f1 <;> cases f2 <;> cases f3 <;> cases hsrc : fs0.src <;>
    simp [ffmpeg_write_genre_inplace, replacePhase, h, hsrc]

/-- Witness for C9: a stray file at the backup path is deleted before
the renames. -/
theorem genre_inplace_backup_clobbered_witness :
    (ffmpeg_write_genre_inplace
        { src := some FContent.orig, tmp := none, bak := some (FContent.other 0) }
        EncodeOutcome.success false false false false false).1.get? 2
      = some { src := some FContent.orig, tmp := some FContent.newFile, bak := none } :=
  genre_inplace_backup_clobbered
    { src := some FContent.orig, tmp := none, bak := some (FContent.other 0) }
    (FContent.other 0) false false false rfl

/-! ## Claims about the tag codecs -/

/-- `setall` leaves every other frame identifier unchanged. -/
theorem setall_frames_ne (t : ID3) (fid : String) (l : List ID3Frame) (g : String)
    (h : g ≠ fid) : (setall t fid l).frames g = t.frames g := by
  simp [setall, h]

/-- `delall` leaves every other frame identifier unchanged. -/
theorem delall_frames_ne (t : ID3) (fid g : String) (h : g ≠ fid) :
    (delall t fid).frames g = t.frames g := by
  simp [delall, h]

/-- `setall` stores exactly the given list at its own identifier. -/
theorem setall_frames_self (t : ID3) (fid : String) (l : List ID3Frame) :
    (setall t fid l).frames fid = l := by
  simp [setall]

/-- `delall` clears its own identifier. -/
theorem delall_frames_self (t : ID3) (fid : String) :
    (delall t fid).frames fid = [] := by
  simp [delall]

/-- `add` leaves every other frame identifier unchanged. -/
theorem addFrame_frames_ne (t : ID3) (fid : String) (fr : ID3Frame) (g : String)
    (h : g ≠ fid) : (addFrame t fid fr).frames g = t.frames g := by
  simp [addFrame, h]

/-- `put` leaves every other frame identifier unchanged. -/
theorem id3Put_frames_ne (t : ID3) (fid : String) (fr : ID3Frame) (v : String) (g : String)
    (h : g ≠ fid) : (id3Put t fid fr v).frames g = t.frames g := by
  unfold id3Put
  split_ifs <;> simp [setall, delall, h]

/-- `put` sets its own frame identifier to the single given frame or to
nothing, depending on whether the stripped value is empty. -/
theorem id3Put_frames_self (t : ID3) (fid : String) (fr : ID3Frame) (v : String) :
    (id3Put t fid fr v).frames fid = if pyStrip v ≠ "" then [fr] else [] := by
  unfold id3Put
  split_ifs <;> simp [setall, delall]

/-- Reading a text frame that `put` has just written yields the stripped
written value (the empty string when the frame was deleted). -/
theorem get_text_of_put (t : ID3) (fid v : String)
    (h : t.frames fid = if pyStrip v ≠ "" then [ID3Frame.text 3 [pyStrip v]] else []) :
    get_text t fid = pyStrip v := by
  unfold get_text
  rw [h]
  split_ifs with hv
  · rfl
  · simp only [ne_eq, not_not] at hv
    rw [hv]

/-- The frame lists `tags_write_mp3` leaves behind for the six text
identifiers and `COMM`, for any starting container and cover action. -/
theorem tags_write_mp3_fields_frames (tags : ID3) (fields : TagFields)
    (cover : Option CoverArg) :
    (tags_write_mp3 tags fields cover).frames "TIT2"
        = (if pyStrip fields.title ≠ "" then [ID3Frame.text 3 [pyStrip fields.title]] else [])
    ∧ (tags_write_mp3 tags fields cover).frames "TPE1"
        = (if pyStrip fields.artist ≠ "" then [ID3Frame.text 3 [pyStrip fields.artist]] else [])
    ∧ (tags_write_mp3 tags fields cover).frames "TALB"
        = (if pyStrip fields.album ≠ "" then [ID3Frame.text 3 [pyStrip fields.album]] else [])
    ∧ (tags_write_mp3 tags fields cover).frames "TRCK"
        = (if pyStrip fields.track ≠ "" then [ID3Frame.text 3 [pyStrip fields.track]] else [])
    ∧ (tags_write_mp3 tags fields cover).frames "TDRC"
        = (if pyStrip fields.year ≠ "" then [ID3Frame.text 3 [pyStrip fields.year]] else [])
    ∧ (tags_write_mp3 tags fields cover).frames "TCON"
        = (if pyStrip fields.genre ≠ "" then [ID3Frame.text 3 [pyStrip fields.genre]] else [])
    ∧ (tags_write_mp3 tags fields cover).frames "COMM"
        = (if pyStrip fields.comment ≠ ""
           then [ID3Frame.comm 3 "eng" "" [pyStrip fields.comment]] else []) := by
  refine ⟨?_, ?_, ?_, ?_, ?_, ?_, ?_⟩ <;>
    cases cover <;>
      simp [tags_write_mp3, id3Put_frames_ne, id3Put_frames_self, setall_frames_ne,
        setall_frames_self, delall_frames_ne, delall_frames_self, addFrame_frames_ne,
        apply_ite ID3.frames, ite_apply]

/-- `m4aSet` leaves every other key unchanged. -/
theorem m4aSet_ne (m : MP4Tags) (key : String) (v : MP4Value) (g : String)
    (h : g ≠ key) : m4aSet m key v g = m g := by
  simp [m4aSet, h]

/-- `m4aSet` stores its value at its own key. -/
theorem m4aSet_self (m : MP4Tags) (key : String) (v : MP4Value) :
    m4aSet m key v key = some v := by
  simp [m4aSet]

/-- `m4aDel` leaves every other key unchanged. -/
theorem m4aDel_ne (m : MP4Tags) (key g : String) (h : g ≠ key) :
    m4aDel m key g = m g := by
  simp [m4aDel, h]

/-- `m4aDel` clears its own key. -/
theorem m4aDel_self (m : MP4Tags) (key : String) : m4aDel m key key = none := by
  simp [m4aDel]

/-- `put` leaves every other key unchanged. -/
theorem m4aPut_ne (m : MP4Tags) (key val g : String) (h : g ≠ key) :
    m4aPut m key val g = m g := by
  unfold m4aPut
  split_ifs <;> simp [m4aSet, m4aDel, h]

/-- `put` sets its own key to the stripped value or clears it. -/
theorem m4aPut_self (m : MP4Tags) (key val : String) :
    m4aPut m key val key
      = if pyStrip val ≠ "" then some (MP4Value.texts [pyStrip val]) else none := by
  unfold m4aPut
  split_ifs <;> simp [m4aSet, m4aDel]

/-- Reading a text atom that `put` has just written yields the stripped
written value (the empty string when the atom was deleted). -/
theorem get1_of_put (m : MP4Tags) (key val : String)
    (h : m key = if pyStrip val ≠ "" then some (MP4Value.texts [pyStrip val]) else none) :
    get1 m key = pyStrip val := by
  unfold get1
  rw [h]
  split_ifs with hv
  · rfl
  · simp only [ne_eq, not_not] at hv
    rw [hv]

/-- The values `tags_write_m4a` leaves behind for the six text atoms,
for any starting dictionary and cover action. -/
theorem tags_write_m4a_text_keys (m : MP4Tags) (fields : TagFields)
    (cover : Option CoverArg) :
    tags_write_m4a m fields cover "©nam"
        = (if pyStrip fields.title ≠ "" then some (MP4Value.texts [pyStrip fields.title])
           else none)
    ∧ tags_write_m4a m fields cover "©ART"
        = (if pyStrip fields.artist ≠ "" then some (MP4Value.texts [pyStrip fields.artist])
           else none)
    ∧ tags_write_m4a m fields cover "©alb"
        = (if pyStrip fields.album ≠ "" then some (MP4Value.texts [pyStrip fields.album])
           else none)
    ∧ tags_write_m4a m fields cover "©day"
        = (if pyStrip fields.year ≠ "" then some (MP4Value.texts [pyStrip fields.year])
           else none)
    ∧ tags_write_m4a m fields cover "©gen"
        = (if pyStrip fields.genre ≠ "" then some (MP4Value.texts [pyStrip fields.genre])
           else none)
    ∧ tags_write_m4a m fields cover "©cmt"
        = (if pyStrip fields.comment ≠ "" then some (MP4Value.texts [pyStrip fields.comment])
           else none) := by
  refine ⟨?_, ?_, ?_, ?_, ?_, ?_⟩ <;>
    cases cover <;>
      simp [tags_write_m4a, m4aPut_ne, m4aPut_self, m4aSet_ne, m4aDel_ne, m4aSet_self,
        m4aDel_self, ite_apply]

/-- The value `tags_write_m4a` leaves behind for the `trkn` atom: set
when the stripped track string is non-empty and parses to a non-zero
track number, deleted when the track string is empty, and — notably —
left exactly as it was when the track string is non-empty but parses to
track number 0. -/
theorem tags_write_m4a_trkn_key (m : MP4Tags) (fields : TagFields)
    (cover : Option CoverArg) :
    tags_write_m4a m fields cover "trkn"
      = if pyStrip fields.track ≠ ""
        then (if (_parse_track (pyStrip fields.track)).1 ≠ 0
              then some (MP4Value.trkn [_parse_track (pyStrip fields.track)])
              else m "trkn")
        else none := by
  cases cover <;>
    simp [tags_write_m4a, m4aPut_ne, m4aPut_self, m4aSet_ne, m4aDel_ne, m4aSet_self,
      m4aDel_self, ite_apply]

/-- Counterexample to claim C3: write-then-read is not the identity on
non-empty fields, even modulo the documented track canonicalization.
Writing `track = "abc"` (which parses to `(0,0)`) to an M4A file whose
dictionary already holds `trkn = (3,10)` neither writes nor clears the
atom, so reading back yields the stale `"3/10"` — not `"abc"`, and not
the empty/absent value the documented canonicalization of a malformed
track string would give. -/
theorem tags_roundtrip_stale_trkn_cex :
    (tags_read_m4a (tags_write_m4a
        (fun k => if k = "trkn" then some (MP4Value.trkn [(3, 10)]) else none)
        { title := "", artist := "", album := "", track := "abc", year := "",
          genre := "", comment := "" }
        none)).track = "3/10"
    ∧ ("3/10" : String) ≠ "abc"
    ∧ ("3/10" : String) ≠ ""
    ∧ _parse_track "abc" = (0, 0) := by
  decide

/-- Claim C3 as amended: writing a `TagFields` and reading the same
container back reproduces every field as its stripped written value —
non-empty values are reproduced, cleared fields read back empty even if
previously set — for all seven MP3 fields unconditionally (any track
string, any cover action, any starting container), and for the six M4A
text fields unconditionally; the M4A track field reads back in the
documented canonical `"N"`/`"N/M"` form provided the track string is
empty or parses to a non-zero track number — a non-empty track string
parsing to track number 0 leaves a pre-existing `trkn` atom in place
(see the counterexample), so only that last conjunct carries the
proviso. -/
theorem tags_roundtrip_modulo_track (tags : ID3) (m : MP4Tags) (fields : TagFields)
    (coverMp3 coverM4a : Option CoverArg) :
    ((tags_read_mp3 (tags_write_mp3 tags fields coverMp3)).title = pyStrip fields.title
     ∧ (tags_read_mp3 (tags_write_mp3 tags fields coverMp3)).artist = pyStrip fields.artist
     ∧ (tags_read_mp3 (tags_write_mp3 tags fields coverMp3)).album = pyStrip fields.album
     ∧ (tags_read_mp3 (tags_write_mp3 tags fields coverMp3)).track = pyStrip fields.track
     ∧ (tags_read_mp3 (tags_write_mp3 tags fields coverMp3)).year = pyStrip fields.year
     ∧ (tags_read_mp3 (tags_write_mp3 tags fields coverMp3)).genre = pyStrip fields.genre
     ∧ (tags_read_mp3 (tags_write_mp3 tags fields coverMp3)).comment = pyStrip fields.comment)
    ∧ ((tags_read_m4a (tags_write_m4a m fields coverM4a)).title = pyStrip fields.title
     ∧ (tags_read_m4a (tags_write_m4a m fields coverM4a)).artist = pyStrip fields.artist
     ∧ (tags_read_m4a (tags_write_m4a m fields coverM4a)).album = pyStrip fields.album
     ∧ (tags_read_m4a (tags_write_m4a m fields coverM4a)).year = pyStrip fields.year
     ∧ (tags_read_m4a (tags_write_m4a m fields coverM4a)).genre = pyStrip fields.genre
     ∧ (tags_read_m4a (tags_write_m4a m fields coverM4a)).comment = pyStrip fields.comment
     ∧ ((pyStrip fields.track = "" ∨ (_parse_track (pyStrip fields.track)).1 ≠ 0) →
        (tags_read_m4a (tags_write_m4a m fields coverM4a)).track
          = trackCanon fields.track)) := by
  obtain ⟨f1, f2, f3, f4, f5, f6, f7⟩ := tags_write_mp3_fields_frames tags fields coverMp3
  obtain ⟨g1, g2, g3, g4, g5, g6⟩ := tags_write_m4a_text_keys m fields coverM4a
  refine ⟨⟨?_, ?_, ?_, ?_, ?_, ?_, ?_⟩, ⟨?_, ?_, ?_, ?_, ?_, ?_, ?_⟩⟩
  · exact get_text_of_put _ _ _ f1
  · exact get_text_of_put _ _ _ f2
  · exact get_text_of_put _ _ _ f3
  · exact get_text_of_put _ _ _ f4
  · exact get_text_of_put _ _ _ f5
  · exact get_text_of_put _ _ _ f6
  · show (match (tags_write_mp3 tags fields coverMp3).frames "COMM" with
      | [] => ""
      | fr :: _ =>
        match fr with
        | ID3Frame.comm _ _ _ (s :: _) => s
        | _ => "") = pyStrip fields.comment
    rw [f7]
    split_ifs with hv
    · rfl
    · simp only [ne_eq, not_not] at hv
      rw [hv]
  · exact get1_of_put _ _ _ g1
  · exact get1_of_put _ _ _ g2
  · exact get1_of_put _ _ _ g3
  · exact get1_of_put _ _ _ g4
  · exact get1_of_put _ _ _ g5
  · exact get1_of_put _ _ _ g6
  · intro h
    have hk := tags_write_m4a_trkn_key m fields coverM4a
    rcases h with h | h
    · simp only [tags_read_m4a, readTrackM4a]
      rw [hk]
      simp [trackCanon, h]
    · by_cases he : pyStrip fields.track = ""
      · simp only [tags_read_m4a, readTrackM4a]
        rw [hk]
        simp [trackCanon, he]
      · rcases hp : _parse_track (pyStrip fields.track) with ⟨tn, tt⟩
        rw [hp] at h hk
        simp only [tags_read_m4a, readTrackM4a]
        rw [hk]
        simp only [trackCanon, hp]
        simp [he, h]

/-- Witness for the amended C3 at a concrete container pair and field
set (title needs stripping; track `"3/4"` parses to `(3,4)`). -/
theorem tags_roundtrip_modulo_track_witness :
    ((tags_read_mp3 (tags_write_mp3 ⟨fun _ => []⟩
        { title := " T ", artist := "A", album := "B", track := "3/4", year := "2020",
          genre := "G", comment := "C" } none)).title = pyStrip " T "
     ∧ (tags_read_mp3 (tags_write_mp3 ⟨fun _ => []⟩
        { title := " T ", artist := "A", album := "B", track := "3/4", year := "2020",
          genre := "G", comment := "C" } none)).artist = pyStrip "A"
     ∧ (tags_read_mp3 (tags_write_mp3 ⟨fun _ => []⟩
        { title := " T ", artist := "A", album := "B", track := "3/4", year := "2020",
          genre := "G", comment := "C" } none)).album = pyStrip "B"
     ∧ (tags_read_mp3 (tags_write_mp3 ⟨fun _ => []⟩
        { title := " T ", artist := "A", album := "B", track := "3/4", year := "2020",
          genre := "G", comment := "C" } none)).track = pyStrip "3/4"
     ∧ (tags_read_mp3 (tags_write_mp3 ⟨fun _ => []⟩
        { title := " T ", artist := "A", album := "B", track := "3/4", year := "2020",
          genre := "G", comment := "C" } none)).year = pyStrip "2020"
     ∧ (tags_read_mp3 (tags_write_mp3 ⟨fun _ => []⟩
        { title := " T ", artist := "A", album := "B", track := "3/4", year := "2020",
          genre := "G", comment := "C" } none)).genre = pyStrip "G"
     ∧ (tags_read_mp3 (tags_write_mp3 ⟨fun _ => []⟩
        { title := " T ", artist := "A", album := "B", track := "3/4", year := "2020",
          genre := "G", comment := "C" } none)).comment = pyStrip "C")
    ∧ ((tags_read_m4a (tags_write_m4a (fun _ => none)
        { title := " T ", artist := "A", album := "B", track := "3/4", year := "2020",
          genre := "G", comment := "C" } none)).title = pyStrip " T "
     ∧ (tags_read_m4a (tags_write_m4a (fun _ => none)
        { title := " T ", artist := "A", album := "B", track := "3/4", year := "2020",
          genre := "G", comment := "C" } none)).artist = pyStrip "A"
     ∧ (tags_read_m4a (tags_write_m4a (fun _ => none)
        { title := " T ", artist := "A", album := "B", track := "3/4", year := "2020",
          genre := "G", comment := "C" } none)).album = pyStrip "B"
     ∧ (tags_read_m4a (tags_write_m4a (fun _ => none)
        { title := " T ", artist := "A", album := "B", track := "3/4", year := "2020",
          genre := "G", comment := "C" } none)).year = pyStrip "2020"
     ∧ (tags_read_m4a (tags_write_m4a (fun _ => none)
        { title := " T ", artist := "A", album := "B", track := "3/4", year := "2020",
          genre := "G", comment := "C" } none)).genre = pyStrip "G"
     ∧ (tags_read_m4a (tags_write_m4a (fun _ => none)
        { title := " T ", artist := "A", album := "B", track := "3/4", year := "2020",
          genre := "G", comment := "C" } none)).comment = pyStrip "C"
     ∧ (tags_read_m4a (tags_write_m4a (fun _ => none)
        { title := " T ", artist := "A", album := "B", track := "3/4", year := "2020",
          genre := "G", comment := "C" } none)).track = trackCanon "3/4") :=
  let T := tags_roundtrip_modulo_track ⟨fun _ => []⟩ (fun _ => none)
    { title := " T ", artist := "A", album := "B", track := "3/4", year := "2020",
      genre := "G", comment := "C" } none none
  ⟨T.1, T.2.1, T.2.2.1, T.2.2.2.1, T.2.2.2.2.1, T.2.2.2.2.2.1, T.2.2.2.2.2.2.1,
   T.2.2.2.2.2.2.2 (Or.inr (by decide))⟩

/-- Claim C8: `_parse_track` accepts the forms `"N"` and `"N/M"`, maps a
malformed string such as `"abc"` to `(0,0)` (it is a total function: no
input raises), and when a non-empty track string parses to track number
0, `tags_write_m4a` does not write the `trkn` atom — the dictionary
entry is exactly what it was before the write (absent when it starts
absent). -/
theorem parse_track_malformed_omits_trkn (m : MP4Tags) (fields : TagFields)
    (cover : Option CoverArg)
    (h1 : pyStrip fields.track ≠ "")
    (h2 : (_parse_track (pyStrip fields.track)).1 = 0) :
    _parse_track "abc" = (0, 0)
    ∧ _parse_track "7" = (7, 0)
    ∧ _parse_track "7/12" = (7, 12)
    ∧ tags_write_m4a m fields cover "trkn" = m "trkn" := by
  refine ⟨by decide, by decide, by decide, ?_⟩
  rw [tags_write_m4a_trkn_key]
  simp [h1, h2]

/-- Witness for C8: writing `track = "abc"` over an empty dictionary
leaves `trkn` absent. -/
theorem parse_track_malformed_omits_trkn_witness :
    _parse_track "abc" = (0, 0)
    ∧ _parse_track "7" = (7, 0)
    ∧ _parse_track "7/12" = (7, 12)
    ∧ tags_write_m4a (fun _ => none)
        { title := "", artist := "", album := "", track := "abc", year := "",
          genre := "", comment := "" } none "trkn"
      = (fun _ => (none : Option MP4Value)) "trkn" :=
  parse_track_malformed_omits_trkn (fun _ => none)
    { title := "", artist := "", album := "", track := "abc", year := "",
      genre := "", comment := "" } none (by decide) (by decide)

/-- Claim C10: `tags_write_mp3` modifies only the frames `TIT2`, `TPE1`,
`TALB`, `TRCK`, `TDRC`, `TCON`, `COMM` and — only when a cover action is
supplied — `APIC`; every other frame identifier keeps exactly the frame
list it had before the write, and with `cover = None` the `APIC` frames
are untouched. -/
theorem tags_write_mp3_frame_effect (tags : ID3) (fields : TagFields)
    (cover : Option CoverArg) :
    (∀ fid, fid ∉ ["TIT2", "TPE1", "TALB", "TRCK", "TDRC", "TCON", "COMM", "APIC"] →
      (tags_write_mp3 tags fields cover).frames fid = tags.frames fid)
    ∧ (tags_write_mp3 tags fields none).frames "APIC" = tags.frames "APIC" := by
  constructor
  · intro fid h
    simp only [List.mem_cons, List.not_mem_nil, or_false, not_or] at h
    obtain ⟨n1, n2, n3, n4, n5, n6, n7, n8⟩ := h
    cases cover with
    | none =>
      simp only [tags_write_mp3]
      split_ifs <;>
        simp [setall_frames_ne, delall_frames_ne, id3Put_frames_ne,
          n1, n2, n3, n4, n5, n6, n7, n8]
    | some c =>
      simp only [tags_write_mp3]
      split_ifs <;>
        simp [setall_frames_ne, delall_frames_ne, addFrame_frames_ne, id3Put_frames_ne,
          n1, n2, n3, n4, n5, n6, n7, n8]
  · simp only [tags_write_mp3]
    split_ifs <;>
      simp [setall_frames_ne, delall_frames_ne, id3Put_frames_ne]

/-- Witness for C10: an unrelated frame (`TXXX`) and the `APIC` frames
of a container survive a cover-less write unchanged. -/
theorem tags_write_mp3_frame_effect_witness :
    (tags_write_mp3 ⟨fun _ => [ID3Frame.otherFrame 7]⟩
        { title := "T", artist := "", album := "", track := "", year := "",
          genre := "", comment := "" } none).frames "TXXX"
      = (⟨fun _ => [ID3Frame.otherFrame 7]⟩ : ID3).frames "TXXX"
    ∧ (tags_write_mp3 ⟨fun _ => [ID3Frame.otherFrame 7]⟩
        { title := "T", artist := "", album := "", track := "", year := "",
          genre := "", comment := "" } none).frames "APIC"
      = (⟨fun _ => [ID3Frame.otherFrame 7]⟩ : ID3).frames "APIC" :=
  ⟨(tags_write_mp3_frame_effect ⟨fun _ => [ID3Frame.otherFrame 7]⟩
      { title := "T", artist := "", album := "", track := "", year := "",
        genre := "", comment := "" } none).1 "TXXX" (by decide),
   (tags_write_mp3_frame_effect ⟨fun _ => [ID3Frame.otherFrame 7]⟩
      { title := "T", artist := "", album := "", track := "", year := "",
        genre := "", comment := "" } none).2⟩

/-! ## Claims about `ffmpeg_export` -/

/-- Claim C7: for a non-video export, an extension outside
`.m4a`/`.mp3`/`.ogg` yields a configuration error without any spawned
process (and hence without touching the filesystem), while each of the
three recognized extensions selects the AAC, MP3 (libmp3lame) or Vorbis
(libvorbis) encoder respectively. -/
theorem ffmpeg_export_ext_dispatch (fp src dst kind : String) (hk : kind ≠ "video") :
    (asciiLower (pathSuffix dst) ∉ [".m4a", ".mp3", ".ogg"] →
      ffmpeg_export (some fp) src dst kind
        = ExportAction.configError ("Okänt ljudformat: " ++ asciiLower (pathSuffix dst)))
    ∧ (asciiLower (pathSuffix dst) = ".m4a" →
      ffmpeg_export (some fp) src dst kind
        = ExportAction.spawn [fp, "-y", "-i", src, "-vn", "-c:a", "aac", "-b:a", "192k",
            "-progress", "pipe:1", "-nostats", dst])
    ∧ (asciiLower (pathSuffix dst) = ".mp3" →
      ffmpeg_export (some fp) src dst kind
        = ExportAction.spawn [fp, "-y", "-i", src, "-vn", "-c:a", "libmp3lame", "-q:a", "2",
            "-progress", "pipe:1", "-nostats", dst])
    ∧ (asciiLower (pathSuffix dst) = ".ogg" →
      ffmpeg_export (some fp) src dst kind
        = ExportAction.spawn [fp, "-y", "-i", src, "-vn", "-c:a", "libvorbis", "-q:a", "6",
            "-progress", "pipe:1", "-nostats", dst]) := by
  refine ⟨?_, ?_, ?_, ?_⟩
  · intro h
    simp only [List.mem_cons, List.not_mem_nil, or_false, not_or] at h
    obtain ⟨h1, h2, h3⟩ := h
    simp [ffmpeg_export, hk, h1, h2, h3]
  · intro h
    simp [ffmpeg_export, hk, h]
  · intro h
    simp +decide [ffmpeg_export, hk, h]
  · intro h
    simp +decide [ffmpeg_export, hk, h]

/-- Witness for C7: a `.wav` audio export is rejected as a
configuration error and `.m4a` selects the AAC encoder. -/
theorem ffmpeg_export_ext_dispatch_witness :
    ffmpeg_export (some "ffmpeg") "in.mp4" "out.wav" "audio"
      = ExportAction.configError ("Okänt ljudformat: " ++ asciiLower (pathSuffix "out.wav"))
    ∧ ffmpeg_export (some "ffmpeg") "in.mp4" "song.m4a" "audio"
      = ExportAction.spawn ["ffmpeg", "-y", "-i", "in.mp4", "-vn", "-c:a", "aac", "-b:a",
          "192k", "-progress", "pipe:1", "-nostats", "song.m4a"] :=
  ⟨(ffmpeg_export_ext_dispatch "ffmpeg" "in.mp4" "out.wav" "audio" (by decide)).1
      (by decide),
   (ffmpeg_export_ext_dispatch "ffmpeg" "in.mp4" "song.m4a" "audio" (by decide)).2.1
      (by decide)⟩
